import Mathlib

/-!
Shallow embedding of the calls plugin core, checked against the source:
server/session.go (session registry and atomic call-state transactions) and
the client call-session engine (device management, mute/unmute, screen
sharing, disconnect). Effectful client methods are modelled as pure
functions from a client state to a new state paired with the list of
observable effects (peer operations, websocket sends, emitted events).
-/

/-- A user session record, as created by newUserSession in session.go.
The websocket channels and WebRTC handles are runtime resources and are not
part of the state the claims touch. -/
structure SessionRec where
  userID : String
  channelID : String
  isMuted : Bool
  isSpeaking : Bool
deriving DecidableEq

/-- newUserSession from session.go: fresh session with zero-valued flags. -/
def newUserSession (userID channelID : String) : SessionRec :=
  { userID := userID, channelID := channelID, isMuted := false, isSpeaking := false }

/-- callState from the server: call identifier, start timestamp, member set.
The Go member set is a map from user id to unit; it is modelled as a list
with set semantics (insert is a no-op on an existing member). -/
structure callState where
  id : String
  startAt : Int
  users : List String
deriving DecidableEq

/-- channelState: the persisted per-channel record. Only the optional Call
sub-record is touched by session.go. -/
structure channelState where
  call : Option callState
deriving DecidableEq

/-- Go zero value of channelState, as produced by `var st channelState`. -/
def channelStateZero : channelState := { call := none }

/-- Member-set insertion, the model of `state.Call.Users[userID] = struct{}{}`. -/
def usersInsert (u : String) (l : List String) : List String :=
  if u ∈ l then l else l ++ [u]

/-- Member-set deletion, the model of `delete(state.Call.Users, userID)`. -/
def usersErase (u : String) (l : List String) : List String :=
  l.filter (fun x => x != u)

/-- Errors surfaced by the two state-store transforms in session.go. -/
inductive StoreErr where
  | channelStateMissing
  | callStateMissing
deriving DecidableEq

/-- Association-list read of the per-channel store. -/
def storeGet (store : List (String × channelState)) (ch : String) : Option channelState :=
  (store.find? (fun e => e.1 == ch)).map Prod.snd

/-- Association-list write of the per-channel store (replace or append). -/
def storeSet (store : List (String × channelState)) (ch : String) (s : channelState) :
    List (String × channelState) :=
  match store with
  | [] => [(ch, s)]
  | e :: rest => if e.1 = ch then (ch, s) :: rest else e :: storeSet rest ch s

/-- Modelled from the spec: the store primitive kvSetAtomicChannelState
(applyTransaction in spec section 4.1) is not under src; per the spec it
reads the channel record, applies the transform, and persists the result
only when the transform returns no error — on error the stored record is
not replaced. Version-conflict retries are invisible in this sequential
model. The snapshot written by the transform into the caller variable is
returned alongside. -/
def kvSetAtomicChannelState (store : List (String × channelState)) (ch : String)
    (f : Option channelState → Except StoreErr channelState) :
    List (String × channelState) × channelState × Option StoreErr :=
  match f (storeGet store ch) with
  | Except.error e => (store, channelStateZero, some e)
  | Except.ok s => (storeSet store ch s, s, none)

/-- Transform passed by addUserSession in session.go: error when the channel
record is missing; lazily create the call sub-record (new id, current
timestamp, empty member set) and insert the member. -/
def addUserSessionTransform (userID newCallID : String) (now : Int) :
    Option channelState → Except StoreErr channelState
  | none => Except.error StoreErr.channelStateMissing
  | some state =>
    let call : callState := match state.call with
      | none => { id := newCallID, startAt := now, users := [] }
      | some c => c
    Except.ok { state with call := some { call with users := usersInsert userID call.users } }

/-- Transform passed by removeUserSession in session.go: error when the
channel record or the call sub-record is missing; delete the member; clear
the call sub-record when the member set becomes empty. -/
def removeUserSessionTransform (userID : String) :
    Option channelState → Except StoreErr channelState
  | none => Except.error StoreErr.channelStateMissing
  | some state =>
    match state.call with
    | none => Except.error StoreErr.callStateMissing
    | some c =>
      let users := usersErase userID c.users
      if users = [] then Except.ok { state with call := none }
      else Except.ok { state with call := some { c with users := users } }

/-- The state held by the Plugin value: the session registry (an in-memory
map from user id to session, mutated under the registry lock) and the
per-channel store. -/
structure PluginState where
  sessions : List (String × SessionRec)
  store : List (String × channelState)
deriving DecidableEq

/-- Registry write, the model of `p.sessions[userID] = userSession`. -/
def registrySet (l : List (String × SessionRec)) (u : String) (s : SessionRec) :
    List (String × SessionRec) :=
  match l with
  | [] => [(u, s)]
  | e :: rest => if e.1 = u then (u, s) :: rest else e :: registrySet rest u s

/-- Registry delete, the model of `delete(p.sessions, userID)`. -/
def registryDelete (l : List (String × SessionRec)) (u : String) :
    List (String × SessionRec) :=
  l.filter (fun e => e.1 != u)

/-- Registry read. -/
def registryGet (l : List (String × SessionRec)) (u : String) : Option SessionRec :=
  (l.find? (fun e => e.1 == u)).map Prod.snd

/-- Result of addUserSession and removeUserSession: the plugin state after
the operation, the channelState snapshot returned to the caller, and the
error if any. -/
structure OpResult where
  plugin : PluginState
  st : channelState
  err : Option StoreErr
deriving DecidableEq

/-- addUserSession from session.go: insert the session into the registry
(under the registry lock), then run the add transform through the atomic
store primitive. The fresh call id and the current time are parameters of
the model. -/
def addUserSession (p : PluginState) (userID channelID newCallID : String) (now : Int) :
    OpResult :=
  let sessions := registrySet p.sessions userID (newUserSession userID channelID)
  let r := kvSetAtomicChannelState p.store channelID
    (addUserSessionTransform userID newCallID now)
  { plugin := { sessions := sessions, store := r.1 }, st := r.2.1, err := r.2.2 }

/-- removeUserSession from session.go: delete the session from the registry,
then run the remove transform through the atomic store primitive. -/
def removeUserSession (p : PluginState) (userID channelID : String) : OpResult :=
  let sessions := registryDelete p.sessions userID
  let r := kvSetAtomicChannelState p.store channelID (removeUserSessionTransform userID)
  { plugin := { sessions := sessions, store := r.1 }, st := r.2.1, err := r.2.2 }

/-- One transaction against the registry and store: a join or a leave. -/
inductive CallOp where
  | add (userID channelID newCallID : String) (now : Int)
  | remove (userID channelID : String)

/-- Apply one operation, keeping only the resulting plugin state. -/
def applyOp (p : PluginState) (op : CallOp) : PluginState :=
  match op with
  | CallOp.add u ch nid now => (addUserSession p u ch nid now).plugin
  | CallOp.remove u ch => (removeUserSession p u ch).plugin

/-- Apply a sequence of join/leave operations. -/
def applyOps (p : PluginState) (ops : List CallOp) : PluginState :=
  ops.foldl applyOp p

/-- The per-channel invariant: the call sub-record, when present, has a
non-empty member set. -/
def callOK (s : channelState) : Bool :=
  match s.call with
  | none => true
  | some c => !c.users.isEmpty

/-- The invariant over the whole store. -/
def storeOK (store : List (String × channelState)) : Bool :=
  store.all (fun e => callOK e.2)

/-- Kind of a media track, as classified by the client (getAudioTracks and
getVideoTracks on a stream). -/
inductive TKind where
  | audio
  | video
deriving DecidableEq

/-- A media track: identifier, kind and the enabled flag. Stopping a track
is recorded as an effect; readiness state is not needed by the claims. -/
structure Track where
  id : String
  kind : TKind
  enabled : Bool
deriving DecidableEq

/-- A media stream: identifier plus its tracks. -/
structure MStream where
  id : String
  tracks : List Track
deriving DecidableEq

/-- Model of MediaStream.getAudioTracks. -/
def getAudioTracks (s : MStream) : List Track :=
  s.tracks.filter (fun t => t.kind == TKind.audio)

/-- Model of MediaStream.getVideoTracks. -/
def getVideoTracks (s : MStream) : List Track :=
  s.tracks.filter (fun t => t.kind == TKind.video)

/-- An enumerated audio device (MediaDeviceInfo): identifier and label. The
kind is implicit in which list (inputs or outputs) holds the device. -/
structure MediaDeviceInfo where
  deviceId : String
  label : String
deriving DecidableEq

instance : Inhabited MediaDeviceInfo := ⟨{ deviceId := "", label := "" }⟩

/-- The persisted device preference, after parsing: the JSON form stores
identifier and label, the legacy form a bare identifier (label absent). -/
structure StoredDevice where
  deviceId : String
  label : Option String
deriving DecidableEq

/-- The enumerated audio devices held by the client. -/
structure AudioDevices where
  inputs : List MediaDeviceInfo
  outputs : List MediaDeviceInfo
deriving DecidableEq

/-- Which per-kind state handleAudioDeviceFallback operates on; the source
passes the strings input and output. -/
inductive DeviceKind where
  | input
  | output
deriving DecidableEq

/-- Observable effects of a client method: peer-connection operations,
websocket sends, emitted events, track/monitor/storage operations. -/
inductive Eff where
  | monitorStop
  | monitorClearCache
  | persistStats
  | peerDestroy
  | trackStop (id : String)
  | trackEndedDispatch (id : String)
  | wsSend (msgType : String)
  | wsClose
  | emitClose
  | emitDevicechange
  | emitDevicefallback (dev : MediaDeviceInfo)
  | emitMute
  | emitUnmute
  | emitError
  | emitInitAudio
  | emitLocalScreenStream (id : String)
  | peerReplaceTrack (oldId : String) (newId : Option String)
  | peerAddTrack (id : String)
  | peerAddStream (id : String)
  | peerRemoveTrack (id : String)
deriving DecidableEq

/-- Errors thrown by the audio-acquisition paths of the client. A failure of
getUserMedia outside initAudio propagates as gumFailure. -/
inductive ClientErr where
  | audioInputPermissions
  | audioInputMissing
  | gumFailure
deriving DecidableEq

/-- The client state: the fields of CallsClient the claims touch. Runtime
handles (peer, websocket, monitor) are modelled by their presence; the
persisted device preferences are part of the state. -/
structure ClientState where
  closed : Bool
  connected : Bool
  peer : Bool
  ws : Bool
  rtcMonitor : Bool
  voiceTrackAdded : Bool
  audioTrack : Option Track
  stream : Option MStream
  streams : List MStream
  localScreenTrack : Option Track
  currentAudioInputDevice : Option MediaDeviceInfo
  currentAudioOutputDevice : Option MediaDeviceInfo
  audioDevices : AudioDevices
  storageInput : Option StoredDevice
  storageOutput : Option StoredDevice
  enableAV1 : Bool
  av1Codec : Bool
deriving DecidableEq

/-- The environment a client method runs against, held fixed for the span of
one operation: the devices enumerateDevices reports and the stream the next
getUserMedia call yields (none models a rejected acquisition). -/
structure Env where
  enumeratedInputs : List MediaDeviceInfo
  enumeratedOutputs : List MediaDeviceInfo
  gum : Option MStream
deriving DecidableEq

/-- Update the enabled flag of one track value when the identifier matches;
models mutation of a shared track object. -/
def trackSetEnabled (id : String) (v : Bool) (t : Track) : Track :=
  if t.id = id then { t with enabled := v } else t

/-- Propagate an enabled-flag mutation through a stream. -/
def streamSetEnabled (id : String) (v : Bool) (s : MStream) : MStream :=
  { s with tracks := s.tracks.map (trackSetEnabled id v) }

/-- Propagate an enabled-flag mutation through every alias of a track in the
client state, modelling shared-object mutation in the source. -/
def clientSetTrackEnabled (c : ClientState) (id : String) (v : Bool) : ClientState :=
  { c with
    audioTrack := c.audioTrack.map (trackSetEnabled id v),
    stream := c.stream.map (streamSetEnabled id v),
    streams := c.streams.map (streamSetEnabled id v) }

/-- getSelectedAudioDevice from the client: read the persisted preference,
reject an empty identifier, keep the devices matching by identifier or by
stored label; with several matches pick by identifier, with exactly one
return it, otherwise none. -/
def getSelectedAudioDevice (storage : Option StoredDevice)
    (devices : List MediaDeviceInfo) : Option MediaDeviceInfo :=
  match storage with
  | none => none
  | some sel =>
    if sel.deviceId = "" then none
    else
      let ms := devices.filter
        (fun dev => dev.deviceId == sel.deviceId || some dev.label == sel.label)
      if ms.length > 1 then ms.find? (fun dev => dev.deviceId == sel.deviceId)
      else if ms.length = 1 then ms.head?
      else none

/-- setAudioOutputDevice from the client: no-op without a peer; optionally
persist the preference; record the device; emit devicechange. -/
def setAudioOutputDevice (c : ClientState) (device : MediaDeviceInfo) (store : Bool) :
    ClientState × List Eff :=
  if !c.peer then (c, [])
  else
    let c1 := if store then
        { c with storageOutput := some { deviceId := device.deviceId, label := some device.label } }
      else c
    ({ c1 with currentAudioOutputDevice := some device }, [Eff.emitDevicechange])

mutual

/-- updateDevices from the client: re-enumerate, store the device lists, run
the per-kind fallback handler for each kind whose current device is set, and
emit devicechange; a thrown error is caught, logged and swallowed (skipping
the devicechange emit). Fuel bounds the recursion through initAudio. -/
def updateDevices (fuel : Nat) (env : Env) (c : ClientState) : ClientState × List Eff :=
  match fuel with
  | 0 => (c, [])
  | fuel + 1 =>
    let c0 := { c with audioDevices :=
      { inputs := env.enumeratedInputs, outputs := env.enumeratedOutputs } }
    match (if c0.currentAudioInputDevice.isSome then
        handleAudioDeviceFallback fuel env DeviceKind.input c0
      else (c0, [], none)) with
    | (c1, e1, some _) => (c1, e1)
    | (c1, e1, none) =>
      match (if c1.currentAudioOutputDevice.isSome then
          handleAudioDeviceFallback fuel env DeviceKind.output c1
        else (c1, [], none)) with
      | (c2, e2, some _) => (c2, e1 ++ e2)
      | (c2, e2, none) => (c2, e1 ++ e2 ++ [Eff.emitDevicechange])

/-- handleAudioDeviceFallback from the client: when the current device of
the kind is no longer enumerated and some device exists, select the first
enumerated device and emit devicefallback; otherwise, when the persisted
preference resolves to a device whose label differs from the current one,
switch to it and emit devicefallback. -/
def handleAudioDeviceFallback (fuel : Nat) (env : Env) (dk : DeviceKind) (c : ClientState) :
    ClientState × List Eff × Option ClientErr :=
  match fuel with
  | 0 => (c, [], none)
  | fuel + 1 =>
    let currentDevice := match dk with
      | DeviceKind.input => c.currentAudioInputDevice
      | DeviceKind.output => c.currentAudioOutputDevice
    let devices := match dk with
      | DeviceKind.input => c.audioDevices.inputs
      | DeviceKind.output => c.audioDevices.outputs
    let missingCurrentDevice :=
      !(devices.any (fun device =>
        (currentDevice.map MediaDeviceInfo.deviceId) == some device.deviceId))
    if missingCurrentDevice && !devices.isEmpty then
      match (match dk with
        | DeviceKind.input => setAudioInputDevice fuel env c devices.headI false
        | DeviceKind.output =>
          let r := setAudioOutputDevice c devices.headI false
          (r.1, r.2, none)) with
      | (c1, e1, some err) => (c1, e1, some err)
      | (c1, e1, none) => (c1, e1 ++ [Eff.emitDevicefallback devices.headI], none)
    else
      match getSelectedAudioDevice
          (match dk with
            | DeviceKind.input => c.storageInput
            | DeviceKind.output => c.storageOutput) devices with
      | some selectedDevice =>
        if some selectedDevice.label != currentDevice.map MediaDeviceInfo.label then
          match (match dk with
            | DeviceKind.input => setAudioInputDevice fuel env c selectedDevice false
            | DeviceKind.output =>
              let r := setAudioOutputDevice c selectedDevice false
              (r.1, r.2, none)) with
          | (c1, e1, some err) => (c1, e1, some err)
          | (c1, e1, none) => (c1, e1 ++ [Eff.emitDevicefallback selectedDevice], none)
        else (c, [], none)
      | none => (c, [], none)

/-- setAudioInputDevice from the client: no-op without a peer; optionally
persist the preference; record the device; emit devicechange; with no track
or stream yet, initialize audio again; otherwise stop the old track, acquire
a replacement stream, swap the track inside the held stream, restore the
enabled flag, and either replace or add the outbound track when enabled. -/
def setAudioInputDevice (fuel : Nat) (env : Env) (c : ClientState)
    (device : MediaDeviceInfo) (store : Bool) :
    ClientState × List Eff × Option ClientErr :=
  match fuel with
  | 0 => (c, [], none)
  | fuel + 1 =>
    if !c.peer then (c, [], none)
    else
      let c0 := if store then
          { c with storageInput := some { deviceId := device.deviceId, label := some device.label } }
        else c
      let c1 := { c0 with currentAudioInputDevice := some device }
      let e0 := [Eff.emitDevicechange]
      match c1.audioTrack, c1.stream with
      | some audioTrack, some stream =>
        let isEnabled := audioTrack.enabled
        let e1 := [Eff.trackStop audioTrack.id]
        match env.gum with
        | none => (c1, e0 ++ e1, some ClientErr.gumFailure)
        | some newStream =>
          let c2 := { c1 with streams := c1.streams ++ [newStream] }
          match getAudioTracks newStream with
          | [] => (c2, e0 ++ e1, some ClientErr.gumFailure)
          | newTrack :: _ =>
            let stream2 : MStream := { stream with
              tracks := (stream.tracks.filter (fun t => t.id != audioTrack.id)) ++ [newTrack] }
            let c3 := clientSetTrackEnabled { c2 with stream := some stream2 } newTrack.id isEnabled
            let effse := if isEnabled then
                (if c3.voiceTrackAdded then
                  [Eff.peerReplaceTrack audioTrack.id (some newTrack.id)]
                else [Eff.peerAddTrack newTrack.id])
              else []
            let c4 := { c3 with
              voiceTrackAdded := if isEnabled then c3.voiceTrackAdded else false,
              audioTrack := some { newTrack with enabled := isEnabled } }
            (c4, e0 ++ e1 ++ effse, none)
      | _, _ =>
        let r := initAudio fuel env c1 (some device.deviceId)
        (r.1, e0 ++ r.2.1, r.2.2)

/-- initAudio from the client: resolve the persisted preferences against the
currently known devices and adopt them; acquire a capture stream (the device
constraint is resolved by the environment); on failure throw the
permissions error when inputs are enumerated and the missing-input error
otherwise; on success re-run updateDevices, take the audio track of the held
stream, disable it, and emit initaudio. -/
def initAudio (fuel : Nat) (env : Env) (c : ClientState) (_deviceId : Option String) :
    ClientState × List Eff × Option ClientErr :=
  match fuel with
  | 0 => (c, [], none)
  | fuel + 1 =>
    let selIn := getSelectedAudioDevice c.storageInput c.audioDevices.inputs
    let c0 := match selIn with
      | some d => { c with currentAudioInputDevice := some d }
      | none => c
    let selOut := getSelectedAudioDevice c.storageOutput c.audioDevices.outputs
    let c1 := match selOut with
      | some d => { c0 with currentAudioOutputDevice := some d }
      | none => c0
    match env.gum with
    | none =>
      (c1, [], some (if !c1.audioDevices.inputs.isEmpty then
        ClientErr.audioInputPermissions else ClientErr.audioInputMissing))
    | some gumStream =>
      let c2 := { c1 with stream := some gumStream }
      let r := updateDevices fuel env c2
      let c3 := r.1
      match (c3.stream.map getAudioTracks).getD [] with
      | [] => (c3, r.2, some ClientErr.gumFailure)
      | track :: _ =>
        let c4 := { c3 with streams := c3.streams ++ [c3.stream.getD gumStream] }
        let c5 := clientSetTrackEnabled
          { c4 with audioTrack := some { track with enabled := false } } track.id false
        (c5, r.2 ++ [Eff.emitInitAudio], none)

end

/-- cleanup from the client: every track of every held stream is stopped and
an ended event is dispatched on it; the state itself is not altered. -/
def cleanupEffs (streams : List MStream) : List Eff :=
  streams.flatMap (fun s =>
    s.tracks.flatMap (fun t => [Eff.trackStop t.id, Eff.trackEndedDispatch t.id]))

/-- disconnect from the client: a second call on a closed client logs and
returns; otherwise stop the monitor, mark closed, persist a stats snapshot
and destroy the peer when present, clean up all tracks, send leave and close
the websocket when present, and emit the terminal close event. -/
def disconnect (c : ClientState) : ClientState × List Eff :=
  if c.closed then (c, [])
  else
    let eMon := if c.rtcMonitor then [Eff.monitorStop] else []
    let c1 := { c with closed := true }
    let pr : ClientState × List Eff :=
      if c1.peer then ({ c1 with peer := false }, [Eff.persistStats, Eff.peerDestroy])
      else (c1, [])
    let c2 := pr.1
    let eClean := cleanupEffs c2.streams
    let wr : ClientState × List Eff :=
      if c2.ws then ({ c2 with ws := false }, [Eff.wsSend "leave", Eff.wsClose])
      else (c2, [])
    (wr.1, eMon ++ pr.2 ++ eClean ++ wr.2 ++ [Eff.emitClose])

/-- mute from the client: no-op without peer, track or stream; replace the
outbound track with a null payload, disable the local track, emit mute, and
send the mute envelope when the websocket is up. -/
def mute (c : ClientState) : ClientState × List Eff :=
  match c.audioTrack, c.stream with
  | some audioTrack, some _ =>
    if !c.peer then (c, [])
    else
      let c1 := clientSetTrackEnabled c audioTrack.id false
      (c1, [Eff.peerReplaceTrack audioTrack.id none, Eff.emitMute]
        ++ (if c.ws then [Eff.wsSend "mute"] else []))
  | _, _ => (c, [])

/-- unmute from the client: no-op without a peer; lazily re-acquire audio
when no track exists (emitting error and stopping on failure); clear the
monitor cache; replace the outbound track when one was already added, add it
otherwise, enable the local track; emit unmute and send the envelope. -/
def unmute (fuel : Nat) (env : Env) (c : ClientState) : ClientState × List Eff :=
  if !c.peer then (c, [])
  else
    match (if c.audioTrack.isNone then initAudio fuel env c none else (c, [], none)) with
    | (c1, e1, some _) => (c1, e1 ++ [Eff.emitError])
    | (c1, e1, none) =>
      let eCache := if c1.rtcMonitor then [Eff.monitorClearCache] else []
      match c1.audioTrack with
      | some audioTrack =>
        let br : ClientState × List Eff :=
          if c1.voiceTrackAdded then
            (c1, [Eff.peerReplaceTrack audioTrack.id (some audioTrack.id)])
          else if c1.stream.isSome then
            ({ c1 with voiceTrackAdded := true }, [Eff.peerAddTrack audioTrack.id])
          else (c1, [])
        let c3 := clientSetTrackEnabled br.1 audioTrack.id true
        (c3, e1 ++ eCache ++ br.2 ++ [Eff.emitUnmute]
          ++ (if c3.ws then [Eff.wsSend "unmute"] else []))
      | none =>
        (c1, e1 ++ eCache ++ [Eff.emitUnmute]
          ++ (if c1.ws then [Eff.wsSend "unmute"] else []))

/-- setScreenStream from the client: rejected when the websocket or peer is
absent or a local screen track already exists; otherwise adopt the first
video track, build the outgoing stream (with captured audio when present),
add the fallback stream to the peer, add the preferred-codec stream when
AV1 is negotiated, send screen_on and emit the local stream event. A capture
stream always carries a video track; the empty case only keeps the model
total. -/
def setScreenStream (c : ClientState) (screenStream : MStream) : ClientState × List Eff :=
  if !c.ws || !c.peer || c.localScreenTrack.isSome then (c, [])
  else
    match getVideoTracks screenStream with
    | [] => (c, [])
    | screenTrack :: _ =>
      let screenAudioTrack := (getAudioTracks screenStream).head?
      let screenStream2 : MStream := { screenStream with
        tracks := match screenAudioTrack with
          | some a => [screenTrack, a]
          | none => [screenTrack] }
      let c1 := { c with
        localScreenTrack := some screenTrack,
        streams := c.streams ++ [screenStream2] }
      let eAV1 := if c.enableAV1 && c.av1Codec then [Eff.peerAddStream screenStream2.id] else []
      (c1, [Eff.peerAddStream screenStream2.id] ++ eAV1
        ++ [Eff.wsSend "screen_on", Eff.emitLocalScreenStream screenStream2.id])

/-- The onended handler installed on the captured screen track by
setScreenStream: stop the captured audio track when present, clear the local
screen track, and — when websocket and peer are still up — remove the track
from the peer and send screen_off. Runs whenever the source track ends,
including externally. -/
def onScreenTrackEnded (screenTrack : Track) (screenAudioTrack : Option Track)
    (c : ClientState) : ClientState × List Eff :=
  let e0 := match screenAudioTrack with
    | some a => [Eff.trackStop a.id]
    | none => []
  let c1 := { c with localScreenTrack := none }
  if !c1.ws || !c1.peer then (c1, e0)
  else (c1, e0 ++ [Eff.peerRemoveTrack screenTrack.id, Eff.wsSend "screen_off"])

/-- unshareScreen from the client: no-op without a websocket or without a
local screen track; stop the track, dispatch its ended event (which fires
the onended handler), and clear the local screen track. -/
def unshareScreen (c : ClientState) : ClientState × List Eff :=
  match c.localScreenTrack with
  | none => (c, [])
  | some t =>
    if !c.ws then (c, [])
    else ({ c with localScreenTrack := none },
      [Eff.trackStop t.id, Eff.trackEndedDispatch t.id])

/-- Recognizer for the devicefallback event among effects. -/
def isFallbackEff : Eff → Bool
  | Eff.emitDevicefallback _ => true
  | _ => false

/-- Number of devicefallback notifications in an effect trace. -/
def fallbackCount (l : List Eff) : Nat :=
  (l.filter isFallbackEff).length

/-- A store with one initialized channel and no active call, used to
instantiate theorems at concrete inputs. -/
def examplePlugin : PluginState :=
  { sessions := [], store := [("general", { call := none })] }

/-- A store whose only channel carries an active call with one member. -/
def examplePluginBusy : PluginState :=
  { sessions := [], store := [("general",
    { call := some { id := "c0", startAt := 7, users := ["A"] } })] }

/-- A short join/leave history on the example store. -/
def exampleOps : List CallOp :=
  [CallOp.add "A" "general" "call1" 100, CallOp.add "B" "general" "call2" 200,
   CallOp.remove "A" "general", CallOp.remove "B" "general"]

/-- A concrete audio track, enabled. -/
def exampleTrack : Track := { id := "t1", kind := TKind.audio, enabled := true }

/-- The stream holding the concrete audio track. -/
def exampleStream : MStream := { id := "s1", tracks := [exampleTrack] }

/-- A fresh capture track returned by the environment. -/
def exampleNewTrack : Track := { id := "t2", kind := TKind.audio, enabled := true }

/-- The stream the environment yields on acquisition. -/
def exampleNewStream : MStream := { id := "s2", tracks := [exampleNewTrack] }

/-- Two enumerated input devices. -/
def exampleDevOne : MediaDeviceInfo := { deviceId := "one", label := "One" }

/-- Second enumerated input device. -/
def exampleDevTwo : MediaDeviceInfo := { deviceId := "two", label := "Two" }

/-- A device that is no longer enumerated. -/
def exampleDevGone : MediaDeviceInfo := { deviceId := "gone", label := "Gone" }

/-- A baseline client with no peer and no websocket. -/
def exampleClientIdle : ClientState :=
  { closed := false, connected := false, peer := false, ws := false, rtcMonitor := false,
    voiceTrackAdded := false, audioTrack := none, stream := none, streams := [],
    localScreenTrack := none, currentAudioInputDevice := some exampleDevGone,
    currentAudioOutputDevice := none,
    audioDevices := { inputs := [], outputs := [] },
    storageInput := none, storageOutput := none, enableAV1 := false, av1Codec := false }

/-- A connected client: peer, websocket and monitor up, audio attached. -/
def exampleClientConnected : ClientState :=
  { exampleClientIdle with
    peer := true
    ws := true
    rtcMonitor := true
    voiceTrackAdded := true
    audioTrack := some exampleTrack
    stream := some exampleStream
    streams := [exampleStream] }

/-- An environment enumerating one input device and yielding a capture
stream. -/
def exampleEnv : Env :=
  { enumeratedInputs := [exampleDevOne], enumeratedOutputs := [],
    gum := some exampleNewStream }

/-- A concrete screen-capture stream with a video track. -/
def exampleScreenStream : MStream :=
  { id := "scr", tracks := [{ id := "v1", kind := TKind.video, enabled := true }] }

/-- Environment with two enumerated input devices for the switch-back
scenario. -/
def exampleEnv2 : Env :=
  { enumeratedInputs := [exampleDevOne, exampleDevTwo], enumeratedOutputs := [],
    gum := some exampleNewStream }

/-- Client whose current input device is enumerated and whose persisted
preference names the second device. -/
def exampleClientSwb : ClientState :=
  { exampleClientConnected with
    currentAudioInputDevice := some exampleDevOne
    storageInput := some { deviceId := "two", label := some "Two" } }

/-- Environment enumerating one output device. -/
def exampleEnvOut : Env :=
  { enumeratedInputs := [], enumeratedOutputs := [exampleDevOne], gum := none }

/-- Client with only an output device selected, and that device vanished. -/
def exampleClientOut : ClientState :=
  { exampleClientConnected with
    currentAudioInputDevice := none
    currentAudioOutputDevice := some exampleDevGone }

/-- Environment with two enumerated output devices. -/
def exampleEnvOut2 : Env :=
  { enumeratedInputs := [], enumeratedOutputs := [exampleDevOne, exampleDevTwo],
    gum := none }

/-- Client whose current output device is enumerated and whose persisted
preference names the second output device. -/
def exampleClientOutSwb : ClientState :=
  { exampleClientConnected with
    currentAudioInputDevice := none
    currentAudioOutputDevice := some exampleDevOne
    storageOutput := some { deviceId := "two", label := some "Two" } }

/-- First step of the concrete scenario: user A joins the general channel. -/
def exampleR1 : OpResult := addUserSession examplePlugin "A" "general" "call1" 100

/-- Second step: user B joins. -/
def exampleR2 : OpResult := addUserSession exampleR1.plugin "B" "general" "call2" 200

/-- Third step: user A leaves. -/
def exampleR3 : OpResult := removeUserSession exampleR2.plugin "A" "general"

/-- Last step: user B leaves. -/
def exampleR4 : OpResult := removeUserSession exampleR3.plugin "B" "general"

/-- The preferred device reappearing under a rotated identifier while
carrying the same label as the currently selected device. -/
def exampleDevRotated : MediaDeviceInfo := { deviceId := "p", label := "One" }

/-- Environment enumerating the current device and the rotated-identifier
preferred device. -/
def exampleEnvRot : Env :=
  { enumeratedInputs := [exampleDevOne, exampleDevRotated], enumeratedOutputs := [],
    gum := some exampleNewStream }

/-- Connected client whose persisted preference names the rotated device by
its new identifier, with the label shared with the current device. -/
def exampleClientRot : ClientState :=
  { exampleClientConnected with
    currentAudioInputDevice := some exampleDevOne
    storageInput := some { deviceId := "p", label := some "One" } }

theorem usersInsert_ne_nil (u : String) (l : List String) : usersInsert u l ≠ [] := by
  unfold usersInsert
  split
  next h => intro hl; rw [hl] at h; exact absurd h (List.not_mem_nil u)
  next => simp

theorem storeOK_storeSet (store : List (String × channelState)) (ch : String)
    (s : channelState) (hst : storeOK store = true) (hs : callOK s = true) :
    storeOK (storeSet store ch s) = true := by
  induction store with
  | nil => simp [storeSet, storeOK, hs]
  | cons e rest ih =>
    simp only [storeOK, List.all_cons, Bool.and_eq_true] at hst
    unfold storeSet
    split
    · simp only [storeOK, List.all_cons, Bool.and_eq_true]
      exact ⟨hs, hst.2⟩
    · simp only [storeOK, List.all_cons, Bool.and_eq_true]
      exact ⟨hst.1, ih hst.2⟩

theorem addTransform_callOK (u nid : String) (now : Int) (st : Option channelState)
    (s : channelState) (h : addUserSessionTransform u nid now st = Except.ok s) :
    callOK s = true := by
  cases st with
  | none => simp [addUserSessionTransform] at h
  | some state =>
    simp only [addUserSessionTransform, Except.ok.injEq] at h
    subst h
    simp only [callOK, Bool.not_eq_true']
    rw [List.isEmpty_eq_false]
    exact usersInsert_ne_nil _ _

theorem removeTransform_callOK (u : String) (st : Option channelState)
    (s : channelState) (h : removeUserSessionTransform u st = Except.ok s) :
    callOK s = true := by
  cases st with
  | none => simp [removeUserSessionTransform] at h
  | some state =>
    cases hc : state.call with
    | none => simp [removeUserSessionTransform, hc] at h
    | some c =>
      simp only [removeUserSessionTransform, hc] at h
      split at h
      · cases h; simp [callOK]
      next hne =>
        cases h
        simp only [callOK, Bool.not_eq_true']
        rw [List.isEmpty_eq_false]
        exact hne

theorem storeOK_kv (store : List (String × channelState)) (ch : String)
    (f : Option channelState → Except StoreErr channelState)
    (hstore : storeOK store = true)
    (hf : ∀ st s, f st = Except.ok s → callOK s = true) :
    storeOK (kvSetAtomicChannelState store ch f).1 = true := by
  unfold kvSetAtomicChannelState
  cases hr : f (storeGet store ch) with
  | error e => simpa using hstore
  | ok s => exact storeOK_storeSet _ _ _ hstore (hf _ _ hr)

theorem storeOK_applyOp (p : PluginState) (op : CallOp) (h : storeOK p.store = true) :
    storeOK (applyOp p op).store = true := by
  cases op with
  | add u ch nid now =>
    simp only [applyOp, addUserSession]
    exact storeOK_kv _ _ _ h (fun st s hs => addTransform_callOK _ _ _ _ _ hs)
  | remove u ch =>
    simp only [applyOp, removeUserSession]
    exact storeOK_kv _ _ _ h (fun st s hs => removeTransform_callOK _ _ _ hs)

theorem storeOK_applyOps (ops : List CallOp) :
    ∀ p : PluginState, storeOK p.store = true → storeOK (applyOps p ops).store = true := by
  induction ops with
  | nil => intro p h; simpa [applyOps] using h
  | cons op rest ih =>
    intro p h
    have := ih (applyOp p op) (storeOK_applyOp p op h)
    simpa [applyOps, List.foldl_cons] using this

/-- C1: after any sequence of addUserSession/removeUserSession transactions
the call sub-record of every channel is present only with a non-empty member
set; addUserSession never leaves a call with an empty member set, and
removeUserSession clears the call sub-record exactly when the last member is
removed. -/
theorem callState_iff_members
    (p : PluginState) (ops : List CallOp) (hp : storeOK p.store = true)
    (q : PluginState) (u ch nid : String) (now : Int) (state : channelState)
    (c : callState) (hq : storeGet q.store ch = some state) (hc : state.call = some c) :
    storeOK (applyOps p ops).store = true
    ∧ (∃ c2, (addUserSession q u ch nid now).st.call = some c2 ∧ c2.users ≠ [])
    ∧ ((removeUserSession q u ch).st.call = none ↔ usersErase u c.users = []) := by
  refine ⟨storeOK_applyOps ops p hp, ?_, ?_⟩
  · simp only [addUserSession, kvSetAtomicChannelState, addUserSessionTransform, hq]
    exact ⟨_, rfl, usersInsert_ne_nil _ _⟩
  · by_cases he : usersErase u c.users = []
    · simp [removeUserSession, kvSetAtomicChannelState, removeUserSessionTransform,
        hq, hc, he]
    · simp [removeUserSession, kvSetAtomicChannelState, removeUserSessionTransform,
        hq, hc, he]

theorem callState_iff_members_witness :
    storeOK (applyOps examplePlugin exampleOps).store = true
    ∧ (∃ c2, (addUserSession examplePluginBusy "A" "general" "n" 1).st.call = some c2
        ∧ c2.users ≠ [])
    ∧ ((removeUserSession examplePluginBusy "A" "general").st.call = none
        ↔ usersErase "A" ["A"] = []) :=
  callState_iff_members examplePlugin exampleOps (by decide) examplePluginBusy
    "A" "general" "n" 1 { call := some { id := "c0", startAt := 7, users := ["A"] } }
    { id := "c0", startAt := 7, users := ["A"] } (by decide) (by decide)

/-- C2: removeUserSession on a channel whose record exists without an active
call fails with the call-state-missing error; addUserSession and
removeUserSession on a channel with no record fail with the
channel-state-missing error; in every error case the transform returns an
error so the stored record is not replaced and the zero-valued snapshot is
returned. -/
theorem missing_state_errors
    (p : PluginState) (u ch nid : String) (now : Int) (state : channelState) :
    (storeGet p.store ch = some state → state.call = none →
      (removeUserSession p u ch).err = some StoreErr.callStateMissing
      ∧ (removeUserSession p u ch).plugin.store = p.store
      ∧ (removeUserSession p u ch).st = channelStateZero)
    ∧ (storeGet p.store ch = none →
      (addUserSession p u ch nid now).err = some StoreErr.channelStateMissing
      ∧ (addUserSession p u ch nid now).plugin.store = p.store
      ∧ (addUserSession p u ch nid now).st = channelStateZero
      ∧ (removeUserSession p u ch).err = some StoreErr.channelStateMissing
      ∧ (removeUserSession p u ch).plugin.store = p.store
      ∧ (removeUserSession p u ch).st = channelStateZero) := by
  constructor
  · intro hq hc
    simp [removeUserSession, kvSetAtomicChannelState, removeUserSessionTransform, hq, hc]
  · intro hq
    simp [addUserSession, removeUserSession, kvSetAtomicChannelState,
      removeUserSessionTransform, addUserSessionTransform, hq]

theorem missing_state_errors_witness :
    ((removeUserSession examplePlugin "A" "general").err = some StoreErr.callStateMissing
      ∧ (removeUserSession examplePlugin "A" "general").plugin.store = examplePlugin.store
      ∧ (removeUserSession examplePlugin "A" "general").st = channelStateZero)
    ∧ ((addUserSession examplePlugin "A" "nochan" "n" 1).err
          = some StoreErr.channelStateMissing
      ∧ (addUserSession examplePlugin "A" "nochan" "n" 1).plugin.store = examplePlugin.store
      ∧ (addUserSession examplePlugin "A" "nochan" "n" 1).st = channelStateZero
      ∧ (removeUserSession examplePlugin "A" "nochan").err
          = some StoreErr.channelStateMissing
      ∧ (removeUserSession examplePlugin "A" "nochan").plugin.store = examplePlugin.store
      ∧ (removeUserSession examplePlugin "A" "nochan").st = channelStateZero) :=
  ⟨(missing_state_errors examplePlugin "A" "general" "n" 1 { call := none }).1
      (by decide) (by decide),
   (missing_state_errors examplePlugin "A" "nochan" "n" 1 channelStateZero).2 (by decide)⟩

/-- C3: on the initialized channel with no active call, the sequence join A,
join B, leave A, leave B produces member lists [A], [A, B] and [B] (lists
model the member set), the first join creates the call sub-record from the
fresh identifier and timestamp with just the inserted member, every
operation succeeds and returns the record that is stored, and the final
leave clears the call sub-record. -/
theorem join_leave_scenario :
    exampleR1.err = none
    ∧ exampleR1.st.call = some { id := "call1", startAt := 100, users := ["A"] }
    ∧ storeGet exampleR1.plugin.store "general" = some exampleR1.st
    ∧ exampleR2.err = none
    ∧ exampleR2.st.call = some { id := "call1", startAt := 100, users := ["A", "B"] }
    ∧ storeGet exampleR2.plugin.store "general" = some exampleR2.st
    ∧ exampleR3.err = none
    ∧ exampleR3.st.call = some { id := "call1", startAt := 100, users := ["B"] }
    ∧ storeGet exampleR3.plugin.store "general" = some exampleR3.st
    ∧ exampleR4.err = none
    ∧ exampleR4.st.call = none
    ∧ storeGet exampleR4.plugin.store "general" = some exampleR4.st := by
  decide

theorem registryGet_registrySet (l : List (String × SessionRec)) (u : String)
    (s : SessionRec) : registryGet (registrySet l u s) u = some s := by
  induction l with
  | nil => simp [registrySet, registryGet]
  | cons e rest ih =>
    unfold registrySet
    split
    · simp [registryGet]
    next hne =>
      simp only [registryGet, List.find?_cons]
      rw [show (e.1 == u) = false from beq_eq_false_iff_ne.mpr hne]
      exact ih

/-- C9: when the store transaction of addUserSession fails because the
channel record is missing, the session inserted into the registry before the
transaction stays registered, and the caller receives the zero-valued
channelState together with the error. -/
theorem session_kept_on_store_error
    (p : PluginState) (u ch nid : String) (now : Int)
    (h : storeGet p.store ch = none) :
    registryGet (addUserSession p u ch nid now).plugin.sessions u
        = some (newUserSession u ch)
    ∧ (addUserSession p u ch nid now).st = channelStateZero
    ∧ (addUserSession p u ch nid now).err = some StoreErr.channelStateMissing := by
  refine ⟨?_, ?_, ?_⟩
  · simp only [addUserSession]
    exact registryGet_registrySet _ _ _
  · simp [addUserSession, kvSetAtomicChannelState, addUserSessionTransform, h]
  · simp [addUserSession, kvSetAtomicChannelState, addUserSessionTransform, h]

theorem session_kept_on_store_error_witness :
    registryGet (addUserSession examplePlugin "A" "nochan" "n" 1).plugin.sessions "A"
        = some (newUserSession "A" "nochan")
    ∧ (addUserSession examplePlugin "A" "nochan" "n" 1).st = channelStateZero
    ∧ (addUserSession examplePlugin "A" "nochan" "n" 1).err
        = some StoreErr.channelStateMissing :=
  session_kept_on_store_error examplePlugin "A" "nochan" "n" 1 (by decide)

theorem count_cleanupEffs_eq_zero (streams : List MStream) (e : Eff)
    (h : ∀ i, e ≠ Eff.trackStop i) (h2 : ∀ i, e ≠ Eff.trackEndedDispatch i) :
    (cleanupEffs streams).count e = 0 := by
  rw [List.count_eq_zero]
  intro hmem
  simp only [cleanupEffs, List.mem_flatMap, List.mem_cons, List.not_mem_nil,
    or_false, List.mem_singleton] at hmem
  obtain ⟨s, _, t, _, ht⟩ := hmem
  rcases ht with h1 | h1
  · exact h t.id h1
  · exact h2 t.id h1

/-- C4: on a client that is not yet closed, disconnect marks the client
closed and performs the teardown once — the monitor stop, the peer
destruction, the leave envelope and the transport close each happen exactly
once when that resource is present — and emits exactly one terminal close
event; a second disconnect returns the same state with no effects at all
(and, being total, raises no error). -/
theorem disconnect_idempotent (c : ClientState) (h : c.closed = false) :
    (disconnect c).1.closed = true
    ∧ disconnect (disconnect c).1 = ((disconnect c).1, [])
    ∧ (disconnect c).2.count Eff.emitClose = 1
    ∧ (disconnect c).2.count Eff.monitorStop = (if c.rtcMonitor then 1 else 0)
    ∧ (disconnect c).2.count Eff.persistStats = (if c.peer then 1 else 0)
    ∧ (disconnect c).2.count Eff.peerDestroy = (if c.peer then 1 else 0)
    ∧ (disconnect c).2.count (Eff.wsSend "leave") = (if c.ws then 1 else 0)
    ∧ (disconnect c).2.count Eff.wsClose = (if c.ws then 1 else 0) := by
  have hc1 : ∀ l : List MStream, (cleanupEffs l).count Eff.emitClose = 0 := fun l =>
    count_cleanupEffs_eq_zero l _ (fun i => by simp) (fun i => by simp)
  have hc2 : ∀ l : List MStream, (cleanupEffs l).count Eff.monitorStop = 0 := fun l =>
    count_cleanupEffs_eq_zero l _ (fun i => by simp) (fun i => by simp)
  have hc3 : ∀ l : List MStream, (cleanupEffs l).count Eff.persistStats = 0 := fun l =>
    count_cleanupEffs_eq_zero l _ (fun i => by simp) (fun i => by simp)
  have hc4 : ∀ l : List MStream, (cleanupEffs l).count Eff.peerDestroy = 0 := fun l =>
    count_cleanupEffs_eq_zero l _ (fun i => by simp) (fun i => by simp)
  have hc5 : ∀ l : List MStream, (cleanupEffs l).count (Eff.wsSend "leave") = 0 := fun l =>
    count_cleanupEffs_eq_zero l _ (fun i => by simp) (fun i => by simp)
  have hc6 : ∀ l : List MStream, (cleanupEffs l).count Eff.wsClose = 0 := fun l =>
    count_cleanupEffs_eq_zero l _ (fun i => by simp) (fun i => by simp)
  cases hm : c.rtcMonitor <;> cases hp : c.peer <;> cases hw : c.ws <;>
    simp [disconnect, h, hm, hp, hw, List.count_append, List.count_cons, hc1, hc2,
      hc3, hc4, hc5, hc6]

theorem disconnect_idempotent_witness :
    (disconnect exampleClientConnected).1.closed = true
    ∧ disconnect (disconnect exampleClientConnected).1
        = ((disconnect exampleClientConnected).1, [])
    ∧ (disconnect exampleClientConnected).2.count Eff.emitClose = 1
    ∧ (disconnect exampleClientConnected).2.count Eff.monitorStop
        = (if exampleClientConnected.rtcMonitor then 1 else 0)
    ∧ (disconnect exampleClientConnected).2.count Eff.persistStats
        = (if exampleClientConnected.peer then 1 else 0)
    ∧ (disconnect exampleClientConnected).2.count Eff.peerDestroy
        = (if exampleClientConnected.peer then 1 else 0)
    ∧ (disconnect exampleClientConnected).2.count (Eff.wsSend "leave")
        = (if exampleClientConnected.ws then 1 else 0)
    ∧ (disconnect exampleClientConnected).2.count Eff.wsClose
        = (if exampleClientConnected.ws then 1 else 0) :=
  disconnect_idempotent exampleClientConnected (by rfl)

/-- C5: with a peer, an audio track and a stream present and the track
already added to the peer, mute followed by unmute leaves the outbound audio
track enabled with its identity preserved, the unmute issues a replaceTrack
on the peer and no addTrack is issued by either call; when the track was
never added, unmute issues the addTrack and records the track as added. -/
theorem mute_unmute_replace (fuel : Nat) (env : Env) (c : ClientState)
    (t : Track) (s : MStream) (hp : c.peer = true) (ht : c.audioTrack = some t)
    (hs : c.stream = some s) :
    (c.voiceTrackAdded = true →
      (unmute fuel env (mute c).1).1.audioTrack = some { t with enabled := true }
      ∧ Eff.peerReplaceTrack t.id (some t.id) ∈ (unmute fuel env (mute c).1).2
      ∧ (∀ i, Eff.peerAddTrack i ∉ (mute c).2)
      ∧ (∀ i, Eff.peerAddTrack i ∉ (unmute fuel env (mute c).1).2))
    ∧ (c.voiceTrackAdded = false →
      Eff.peerAddTrack t.id ∈ (unmute fuel env (mute c).1).2
      ∧ (unmute fuel env (mute c).1).1.voiceTrackAdded = true) := by
  constructor
  · intro hv
    cases hw : c.ws <;> cases hm : c.rtcMonitor <;>
      simp [mute, unmute, hp, ht, hs, hv, hw, hm, clientSetTrackEnabled,
        trackSetEnabled, streamSetEnabled]
  · intro hv
    cases hw : c.ws <;> cases hm : c.rtcMonitor <;>
      simp [mute, unmute, hp, ht, hs, hv, hw, hm, clientSetTrackEnabled,
        trackSetEnabled, streamSetEnabled]

theorem mute_unmute_replace_witness :
    (exampleClientConnected.voiceTrackAdded = true →
      (unmute 5 exampleEnv (mute exampleClientConnected).1).1.audioTrack
          = some { exampleTrack with enabled := true }
      ∧ Eff.peerReplaceTrack exampleTrack.id (some exampleTrack.id)
          ∈ (unmute 5 exampleEnv (mute exampleClientConnected).1).2
      ∧ (∀ i, Eff.peerAddTrack i ∉ (mute exampleClientConnected).2)
      ∧ (∀ i, Eff.peerAddTrack i ∉ (unmute 5 exampleEnv (mute exampleClientConnected).1).2))
    ∧ (exampleClientConnected.voiceTrackAdded = false →
      Eff.peerAddTrack exampleTrack.id
          ∈ (unmute 5 exampleEnv (mute exampleClientConnected).1).2
      ∧ (unmute 5 exampleEnv (mute exampleClientConnected).1).1.voiceTrackAdded = true) :=
  mute_unmute_replace 5 exampleEnv exampleClientConnected exampleTrack exampleStream
    (by rfl) (by rfl) (by rfl)

/-- C7: whenever a local screen track exists, a further setScreenStream call
is rejected: the client state — local screen track, streams list, signaling
— is returned unchanged and no effect (no peer operation, no send) is
performed. -/
theorem second_setScreenStream_rejected (c : ClientState) (t : Track)
    (h : c.localScreenTrack = some t) (s : MStream) :
    setScreenStream c s = (c, []) := by
  simp [setScreenStream, h]

theorem second_setScreenStream_rejected_witness :
    setScreenStream
      { exampleClientConnected with
        localScreenTrack := some { id := "v1", kind := TKind.video, enabled := true } }
      exampleScreenStream
    = ({ exampleClientConnected with
        localScreenTrack := some { id := "v1", kind := TKind.video, enabled := true } },
      []) :=
  second_setScreenStream_rejected _ { id := "v1", kind := TKind.video, enabled := true }
    (by rfl) exampleScreenStream

/-- C8: when the source track of an active local screen share ends — the
onended handler runs regardless of whether unshareScreen was called — the
client clears the local screen-track state, removes the track from the peer
connection and sends the screen_off envelope, provided websocket and peer
are still up. -/
theorem screen_track_ended_cleanup (c : ClientState) (st0 : Track)
    (sat : Option Track) (t : Track) (_hlt : c.localScreenTrack = some t)
    (hws : c.ws = true) (hp : c.peer = true) :
    (onScreenTrackEnded st0 sat c).1.localScreenTrack = none
    ∧ Eff.peerRemoveTrack st0.id ∈ (onScreenTrackEnded st0 sat c).2
    ∧ Eff.wsSend "screen_off" ∈ (onScreenTrackEnded st0 sat c).2 := by
  cases sat <;> simp [onScreenTrackEnded, hws, hp]

theorem screen_track_ended_cleanup_witness :
    (onScreenTrackEnded { id := "v1", kind := TKind.video, enabled := true } none
      { exampleClientConnected with
        localScreenTrack := some { id := "v1", kind := TKind.video, enabled := true } }
      ).1.localScreenTrack = none
    ∧ Eff.peerRemoveTrack "v1"
        ∈ (onScreenTrackEnded { id := "v1", kind := TKind.video, enabled := true } none
          { exampleClientConnected with
            localScreenTrack := some { id := "v1", kind := TKind.video, enabled := true } }).2
    ∧ Eff.wsSend "screen_off"
        ∈ (onScreenTrackEnded { id := "v1", kind := TKind.video, enabled := true } none
          { exampleClientConnected with
            localScreenTrack := some { id := "v1", kind := TKind.video, enabled := true } }).2 :=
  screen_track_ended_cleanup _ _ none { id := "v1", kind := TKind.video, enabled := true }
    (by rfl) (by rfl) (by rfl)

/-- C10: without a peer connection both device-selection methods return
immediately: the client state — including the current-device fields and the
persisted preferences, which live in the state — is unchanged, no event is
emitted and no error is raised. -/
theorem setAudioDevice_noop_without_peer (fuel : Nat) (env : Env) (c : ClientState)
    (d : MediaDeviceInfo) (store : Bool) (h : c.peer = false) :
    setAudioInputDevice fuel env c d store = (c, [], none)
    ∧ setAudioOutputDevice c d store = (c, []) := by
  constructor
  · cases fuel with
    | zero => rfl
    | succ n => simp [setAudioInputDevice, h]
  · simp [setAudioOutputDevice, h]

theorem setAudioDevice_noop_without_peer_witness :
    setAudioInputDevice 5 exampleEnv exampleClientIdle exampleDevOne true
      = (exampleClientIdle, [], none)
    ∧ setAudioOutputDevice exampleClientIdle exampleDevOne true = (exampleClientIdle, []) :=
  setAudioDevice_noop_without_peer 5 exampleEnv exampleClientIdle exampleDevOne true (by rfl)

theorem fallbackCount_append (a b : List Eff) :
    fallbackCount (a ++ b) = fallbackCount a + fallbackCount b := by
  simp [fallbackCount, List.filter_append]

theorem setAudioInputDevice_replace (fuel : Nat) (env : Env) (c : ClientState)
    (d : MediaDeviceInfo) (t : Track) (s gs : MStream) (nt : Track) (rest : List Track)
    (hp : c.peer = true) (ht : c.audioTrack = some t) (hs : c.stream = some s)
    (hg : env.gum = some gs) (hgt : getAudioTracks gs = nt :: rest) :
    (setAudioInputDevice (fuel+1) env c d false).1.currentAudioInputDevice = some d
    ∧ (setAudioInputDevice (fuel+1) env c d false).1.currentAudioOutputDevice
        = c.currentAudioOutputDevice
    ∧ (setAudioInputDevice (fuel+1) env c d false).2.2 = none
    ∧ fallbackCount (setAudioInputDevice (fuel+1) env c d false).2.1 = 0 := by
  cases he : t.enabled <;> cases hv : c.voiceTrackAdded <;>
    simp [setAudioInputDevice, hp, ht, hs, hg, hgt, he, hv, clientSetTrackEnabled,
      fallbackCount, isFallbackEff]

theorem handle_input_fallback (n : Nat) (env : Env) (c0 : ClientState)
    (cd : MediaDeviceInfo) (t : Track) (s gs : MStream) (nt : Track) (rest : List Track)
    (hp : c0.peer = true) (hcd : c0.currentAudioInputDevice = some cd)
    (hmiss : ∀ d ∈ c0.audioDevices.inputs, d.deviceId ≠ cd.deviceId)
    (hne : c0.audioDevices.inputs ≠ [])
    (ht : c0.audioTrack = some t) (hs : c0.stream = some s)
    (hg : env.gum = some gs) (hgt : getAudioTracks gs = nt :: rest) :
    (handleAudioDeviceFallback (n+2) env DeviceKind.input c0).1.currentAudioInputDevice
        = some c0.audioDevices.inputs.headI
    ∧ (handleAudioDeviceFallback (n+2) env DeviceKind.input c0).1.currentAudioOutputDevice
        = c0.currentAudioOutputDevice
    ∧ (handleAudioDeviceFallback (n+2) env DeviceKind.input c0).2.2 = none
    ∧ fallbackCount (handleAudioDeviceFallback (n+2) env DeviceKind.input c0).2.1 = 1 := by
  have hany : (c0.audioDevices.inputs.any fun device =>
      (c0.currentAudioInputDevice.map MediaDeviceInfo.deviceId) == some device.deviceId)
      = false := by
    rw [List.any_eq_false]
    intro d hd
    rw [hcd]
    simp only [Option.map_some', beq_iff_eq, Option.some.injEq]
    exact fun hcon => hmiss d hd hcon.symm
  obtain ⟨h1, h2, h3, h4⟩ := setAudioInputDevice_replace n env c0
    c0.audioDevices.inputs.headI t s gs nt rest hp ht hs hg hgt
  rcases hr : setAudioInputDevice (n+1) env c0 c0.audioDevices.inputs.headI false
    with ⟨c1, e1, err1⟩
  rw [hr] at h1 h2 h3 h4
  simp only at h1 h2 h3 h4
  subst h3
  have hne2 : c0.audioDevices.inputs.isEmpty = false := by
    rw [List.isEmpty_eq_false]; exact hne
  simp only [handleAudioDeviceFallback, hany, hne2, hr]
  simp only [Bool.not_false, Bool.and_self, if_true, hcd]
  refine ⟨h1, h2, by trivial, ?_⟩
  rw [fallbackCount_append, h4]
  simp [fallbackCount, isFallbackEff]

theorem handle_input_switchback (n : Nat) (env : Env) (c0 : ClientState)
    (cd sd : MediaDeviceInfo) (t : Track) (s gs : MStream) (nt : Track) (rest : List Track)
    (hp : c0.peer = true) (hcd : c0.currentAudioInputDevice = some cd)
    (hpres : ∃ d ∈ c0.audioDevices.inputs, d.deviceId = cd.deviceId)
    (hsel : getSelectedAudioDevice c0.storageInput c0.audioDevices.inputs = some sd)
    (hlbl : sd.label ≠ cd.label)
    (ht : c0.audioTrack = some t) (hs : c0.stream = some s)
    (hg : env.gum = some gs) (hgt : getAudioTracks gs = nt :: rest) :
    (handleAudioDeviceFallback (n+2) env DeviceKind.input c0).1.currentAudioInputDevice
        = some sd
    ∧ (handleAudioDeviceFallback (n+2) env DeviceKind.input c0).1.currentAudioOutputDevice
        = c0.currentAudioOutputDevice
    ∧ (handleAudioDeviceFallback (n+2) env DeviceKind.input c0).2.2 = none
    ∧ fallbackCount (handleAudioDeviceFallback (n+2) env DeviceKind.input c0).2.1 = 1 := by
  have hany : (c0.audioDevices.inputs.any fun device =>
      (c0.currentAudioInputDevice.map MediaDeviceInfo.deviceId) == some device.deviceId)
      = true := by
    rw [List.any_eq_true]
    obtain ⟨d, hd, hid⟩ := hpres
    refine ⟨d, hd, ?_⟩
    rw [hcd]
    simp only [Option.map_some', beq_iff_eq, Option.some.injEq]
    exact hid.symm
  have hlbl2 : (some sd.label != Option.map MediaDeviceInfo.label c0.currentAudioInputDevice)
      = true := by
    rw [hcd]
    simp only [Option.map_some', bne_iff_ne, ne_eq, Option.some.injEq]
    exact hlbl
  obtain ⟨h1, h2, h3, h4⟩ := setAudioInputDevice_replace n env c0 sd t s gs nt rest
    hp ht hs hg hgt
  rcases hr : setAudioInputDevice (n+1) env c0 sd false with ⟨c1, e1, err1⟩
  rw [hr] at h1 h2 h3 h4
  simp only at h1 h2 h3 h4
  subst h3
  simp only [handleAudioDeviceFallback, hany, hsel, hlbl2, hr]
  simp only [Bool.not_true, Bool.false_and, Bool.false_eq_true, if_false, if_true]
  refine ⟨h1, h2, by trivial, ?_⟩
  rw [fallbackCount_append, h4]
  simp [fallbackCount, isFallbackEff]

theorem handle_output_fallback (n : Nat) (env : Env) (c0 : ClientState)
    (cd : MediaDeviceInfo)
    (hp : c0.peer = true) (hcd : c0.currentAudioOutputDevice = some cd)
    (hmiss : ∀ d ∈ c0.audioDevices.outputs, d.deviceId ≠ cd.deviceId)
    (hne : c0.audioDevices.outputs ≠ []) :
    (handleAudioDeviceFallback (n+2) env DeviceKind.output c0).1.currentAudioOutputDevice
        = some c0.audioDevices.outputs.headI
    ∧ (handleAudioDeviceFallback (n+2) env DeviceKind.output c0).1.currentAudioInputDevice
        = c0.currentAudioInputDevice
    ∧ (handleAudioDeviceFallback (n+2) env DeviceKind.output c0).2.2 = none
    ∧ fallbackCount (handleAudioDeviceFallback (n+2) env DeviceKind.output c0).2.1 = 1 := by
  have hany : (c0.audioDevices.outputs.any fun device =>
      (c0.currentAudioOutputDevice.map MediaDeviceInfo.deviceId) == some device.deviceId)
      = false := by
    rw [List.any_eq_false]
    intro d hd
    rw [hcd]
    simp only [Option.map_some', beq_iff_eq, Option.some.injEq]
    exact fun hcon => hmiss d hd hcon.symm
  have hne2 : c0.audioDevices.outputs.isEmpty = false := by
    rw [List.isEmpty_eq_false]; exact hne
  simp only [handleAudioDeviceFallback, hany, hne2, setAudioOutputDevice, hp]
  simp [fallbackCount, isFallbackEff]

theorem handle_output_switchback (n : Nat) (env : Env) (c0 : ClientState)
    (cd sd : MediaDeviceInfo)
    (hp : c0.peer = true) (hcd : c0.currentAudioOutputDevice = some cd)
    (hpres : ∃ d ∈ c0.audioDevices.outputs, d.deviceId = cd.deviceId)
    (hsel : getSelectedAudioDevice c0.storageOutput c0.audioDevices.outputs = some sd)
    (hlbl : sd.label ≠ cd.label) :
    (handleAudioDeviceFallback (n+2) env DeviceKind.output c0).1.currentAudioOutputDevice
        = some sd
    ∧ (handleAudioDeviceFallback (n+2) env DeviceKind.output c0).1.currentAudioInputDevice
        = c0.currentAudioInputDevice
    ∧ (handleAudioDeviceFallback (n+2) env DeviceKind.output c0).2.2 = none
    ∧ fallbackCount (handleAudioDeviceFallback (n+2) env DeviceKind.output c0).2.1 = 1 := by
  have hany : (c0.audioDevices.outputs.any fun device =>
      (c0.currentAudioOutputDevice.map MediaDeviceInfo.deviceId) == some device.deviceId)
      = true := by
    rw [List.any_eq_true]
    obtain ⟨d, hd, hid⟩ := hpres
    refine ⟨d, hd, ?_⟩
    rw [hcd]
    simp only [Option.map_some', beq_iff_eq, Option.some.injEq]
    exact hid.symm
  have hlbl2 : (some sd.label != Option.map MediaDeviceInfo.label c0.currentAudioOutputDevice)
      = true := by
    rw [hcd]
    simp only [Option.map_some', bne_iff_ne, ne_eq, Option.some.injEq]
    exact hlbl
  simp only [handleAudioDeviceFallback, hany, hsel, hlbl2, setAudioOutputDevice, hp]
  simp [fallbackCount, isFallbackEff]

theorem updateDevices_input_fallback (n : Nat) (env : Env) (c : ClientState)
    (cd : MediaDeviceInfo) (t : Track) (s gs : MStream) (nt : Track) (rest : List Track)
    (hp : c.peer = true) (hcd : c.currentAudioInputDevice = some cd)
    (hout : c.currentAudioOutputDevice = none)
    (hmiss : ∀ d ∈ env.enumeratedInputs, d.deviceId ≠ cd.deviceId)
    (hne : env.enumeratedInputs ≠ [])
    (ht : c.audioTrack = some t) (hs : c.stream = some s)
    (hg : env.gum = some gs) (hgt : getAudioTracks gs = nt :: rest) :
    (updateDevices (n+3) env c).1.currentAudioInputDevice = some env.enumeratedInputs.headI
    ∧ fallbackCount (updateDevices (n+3) env c).2 = 1 := by
  have hh := handle_input_fallback n env
    { c with audioDevices :=
      { inputs := env.enumeratedInputs, outputs := env.enumeratedOutputs } }
    cd t s gs nt rest hp hcd hmiss hne ht hs hg hgt
  rcases hr : handleAudioDeviceFallback (n+2) env DeviceKind.input
    { c with audioDevices :=
      { inputs := env.enumeratedInputs, outputs := env.enumeratedOutputs } }
    with ⟨c1, e1, err1⟩
  rw [hr] at hh
  simp only at hh
  obtain ⟨h1, h2, h3, h4⟩ := hh
  subst h3
  rw [hout] at h2
  simp only [updateDevices]
  rw [hcd, hout] at hr
  simp only [hcd, hout, Option.isSome_some, if_true, hr, h2, Option.isSome_none,
    Bool.false_eq_true, if_false]
  refine ⟨h1, ?_⟩
  rw [fallbackCount_append, fallbackCount_append, h4]
  simp [fallbackCount, isFallbackEff]

theorem updateDevices_input_switchback (n : Nat) (env : Env) (c : ClientState)
    (cd sd : MediaDeviceInfo) (t : Track) (s gs : MStream) (nt : Track) (rest : List Track)
    (hp : c.peer = true) (hcd : c.currentAudioInputDevice = some cd)
    (hout : c.currentAudioOutputDevice = none)
    (hpres : ∃ d ∈ env.enumeratedInputs, d.deviceId = cd.deviceId)
    (hsel : getSelectedAudioDevice c.storageInput env.enumeratedInputs = some sd)
    (hlbl : sd.label ≠ cd.label)
    (ht : c.audioTrack = some t) (hs : c.stream = some s)
    (hg : env.gum = some gs) (hgt : getAudioTracks gs = nt :: rest) :
    (updateDevices (n+3) env c).1.currentAudioInputDevice = some sd
    ∧ fallbackCount (updateDevices (n+3) env c).2 = 1 := by
  have hh := handle_input_switchback n env
    { c with audioDevices :=
      { inputs := env.enumeratedInputs, outputs := env.enumeratedOutputs } }
    cd sd t s gs nt rest hp hcd hpres hsel hlbl ht hs hg hgt
  rcases hr : handleAudioDeviceFallback (n+2) env DeviceKind.input
    { c with audioDevices :=
      { inputs := env.enumeratedInputs, outputs := env.enumeratedOutputs } }
    with ⟨c1, e1, err1⟩
  rw [hr] at hh
  simp only at hh
  obtain ⟨h1, h2, h3, h4⟩ := hh
  subst h3
  rw [hout] at h2
  simp only [updateDevices]
  rw [hcd, hout] at hr
  simp only [hcd, hout, Option.isSome_some, if_true, hr, h2, Option.isSome_none,
    Bool.false_eq_true, if_false]
  refine ⟨h1, ?_⟩
  rw [fallbackCount_append, fallbackCount_append, h4]
  simp [fallbackCount, isFallbackEff]

theorem updateDevices_output_fallback (n : Nat) (env : Env) (c : ClientState)
    (cd : MediaDeviceInfo)
    (hp : c.peer = true) (hin : c.currentAudioInputDevice = none)
    (hcd : c.currentAudioOutputDevice = some cd)
    (hmiss : ∀ d ∈ env.enumeratedOutputs, d.deviceId ≠ cd.deviceId)
    (hne : env.enumeratedOutputs ≠ []) :
    (updateDevices (n+3) env c).1.currentAudioOutputDevice
        = some env.enumeratedOutputs.headI
    ∧ fallbackCount (updateDevices (n+3) env c).2 = 1 := by
  have hh := handle_output_fallback n env
    { c with audioDevices :=
      { inputs := env.enumeratedInputs, outputs := env.enumeratedOutputs } }
    cd hp hcd hmiss hne
  rcases hr : handleAudioDeviceFallback (n+2) env DeviceKind.output
    { c with audioDevices :=
      { inputs := env.enumeratedInputs, outputs := env.enumeratedOutputs } }
    with ⟨c1, e1, err1⟩
  rw [hr] at hh
  simp only at hh
  obtain ⟨h1, h2, h3, h4⟩ := hh
  subst h3
  simp only [updateDevices]
  rw [hin, hcd] at hr
  simp only [hin, hcd, Option.isSome_none, Bool.false_eq_true, if_false,
    Option.isSome_some, if_true, hr]
  refine ⟨h1, ?_⟩
  rw [fallbackCount_append, fallbackCount_append, h4]
  simp [fallbackCount, isFallbackEff]

theorem updateDevices_output_switchback (n : Nat) (env : Env) (c : ClientState)
    (cd sd : MediaDeviceInfo)
    (hp : c.peer = true) (hin : c.currentAudioInputDevice = none)
    (hcd : c.currentAudioOutputDevice = some cd)
    (hpres : ∃ d ∈ env.enumeratedOutputs, d.deviceId = cd.deviceId)
    (hsel : getSelectedAudioDevice c.storageOutput env.enumeratedOutputs = some sd)
    (hlbl : sd.label ≠ cd.label) :
    (updateDevices (n+3) env c).1.currentAudioOutputDevice = some sd
    ∧ fallbackCount (updateDevices (n+3) env c).2 = 1 := by
  have hh := handle_output_switchback n env
    { c with audioDevices :=
      { inputs := env.enumeratedInputs, outputs := env.enumeratedOutputs } }
    cd sd hp hcd hpres hsel hlbl
  rcases hr : handleAudioDeviceFallback (n+2) env DeviceKind.output
    { c with audioDevices :=
      { inputs := env.enumeratedInputs, outputs := env.enumeratedOutputs } }
    with ⟨c1, e1, err1⟩
  rw [hr] at hh
  simp only at hh
  obtain ⟨h1, h2, h3, h4⟩ := hh
  subst h3
  simp only [updateDevices]
  rw [hin, hcd] at hr
  simp only [hin, hcd, Option.isSome_none, Bool.false_eq_true, if_false,
    Option.isSome_some, if_true, hr]
  refine ⟨h1, ?_⟩
  rw [fallbackCount_append, fallbackCount_append, h4]
  simp [fallbackCount, isFallbackEff]

theorem getSelected_id_primary (sel : StoredDevice) (devices : List MediaDeviceInfo)
    (d : MediaDeviceInfo) (hne : sel.deviceId ≠ "") (hd : d ∈ devices)
    (hid : d.deviceId = sel.deviceId) :
    ∃ r, getSelectedAudioDevice (some sel) devices = some r
      ∧ r.deviceId = sel.deviceId := by
  simp only [getSelectedAudioDevice]
  rw [if_neg hne]
  have hdm : d ∈ devices.filter
      (fun dev => dev.deviceId == sel.deviceId || some dev.label == sel.label) :=
    List.mem_filter.mpr ⟨hd, by simp [hid]⟩
  by_cases hlen : (devices.filter
      (fun dev => dev.deviceId == sel.deviceId || some dev.label == sel.label)).length > 1
  · rw [if_pos hlen]
    have hex : (devices.filter
        (fun dev => dev.deviceId == sel.deviceId || some dev.label == sel.label)).find?
          (fun dev => dev.deviceId == sel.deviceId) |>.isSome := by
      rw [List.find?_isSome]
      exact ⟨d, hdm, by simp [hid]⟩
    obtain ⟨r, hrr⟩ := Option.isSome_iff_exists.mp hex
    refine ⟨r, hrr, ?_⟩
    have := List.find?_some hrr
    simpa using this
  · rw [if_neg hlen]
    have hlen1 : (devices.filter
        (fun dev => dev.deviceId == sel.deviceId || some dev.label == sel.label)).length
        = 1 := by
      have hpos : 0 < (devices.filter
          (fun dev => dev.deviceId == sel.deviceId || some dev.label == sel.label)).length :=
        List.length_pos.mpr (List.ne_nil_of_mem hdm)
      omega
    rw [if_pos hlen1]
    obtain ⟨a, ha⟩ := List.length_eq_one.mp hlen1
    rw [ha] at hdm
    have hda : d = a := by simpa using hdm
    rw [ha]
    exact ⟨a, by simp, by rw [← hda]; exact hid⟩

theorem getSelected_label_fallback (sel : StoredDevice) (devices : List MediaDeviceInfo)
    (d : MediaDeviceInfo) (hne : sel.deviceId ≠ "")
    (hnoid : ∀ x ∈ devices, x.deviceId ≠ sel.deviceId)
    (hlab : devices.filter (fun dev => some dev.label == sel.label) = [d]) :
    getSelectedAudioDevice (some sel) devices = some d := by
  simp only [getSelectedAudioDevice]
  rw [if_neg hne]
  have hfil : devices.filter
      (fun dev => dev.deviceId == sel.deviceId || some dev.label == sel.label)
      = devices.filter (fun dev => some dev.label == sel.label) := by
    apply List.filter_congr
    intro x hx
    have : (x.deviceId == sel.deviceId) = false := by
      rw [beq_eq_false_iff_ne]
      exact hnoid x hx
    rw [this, Bool.false_or]
  rw [hfil, hlab]
  simp

/-- C6 counterexample: the claim as stated fails at two concrete inputs.
First, on a client without a peer connection whose selected input device is
no longer enumerated while another input device exists, updateDevices
leaves the selection on the vanished device — it does not fall back to the
first enumerated device — even though the devicefallback notification is
emitted. Second, on a client with a peer whose persisted preferred device
has reappeared under a rotated identifier carrying the same label as the
current device, the preference resolves (by identifier, as the claim's own
matching policy prescribes) to a device that differs from the current one,
yet updateDevices neither switches the selection to it nor emits any
devicefallback notification, because the source triggers the switch-back on
a label comparison only. -/
theorem device_fallback_cex :
    (exampleClientIdle.peer = false
    ∧ exampleClientIdle.currentAudioInputDevice = some exampleDevGone
    ∧ (∀ d ∈ exampleEnv.enumeratedInputs, d.deviceId ≠ exampleDevGone.deviceId)
    ∧ exampleEnv.enumeratedInputs ≠ []
    ∧ (updateDevices 5 exampleEnv exampleClientIdle).1.currentAudioInputDevice
        = some exampleDevGone
    ∧ (updateDevices 5 exampleEnv exampleClientIdle).1.currentAudioInputDevice
        ≠ some exampleEnv.enumeratedInputs.headI
    ∧ fallbackCount (updateDevices 5 exampleEnv exampleClientIdle).2 = 1)
    ∧ (exampleClientRot.peer = true
    ∧ exampleClientRot.currentAudioInputDevice = some exampleDevOne
    ∧ exampleDevOne ∈ exampleEnvRot.enumeratedInputs
    ∧ getSelectedAudioDevice exampleClientRot.storageInput
        exampleEnvRot.enumeratedInputs = some exampleDevRotated
    ∧ exampleDevRotated ≠ exampleDevOne
    ∧ (updateDevices 5 exampleEnvRot exampleClientRot).1.currentAudioInputDevice
        = some exampleDevOne
    ∧ fallbackCount (updateDevices 5 exampleEnvRot exampleClientRot).2 = 0) := by
  decide

/-- C6 (amended): with a peer connection present, on device re-enumeration:
a selected input (or output) device of a kind that is no longer enumerated,
with at least one device of that kind present, makes selection fall back to
the first enumerated device of that kind with exactly one devicefallback
notification; when the persisted preference resolves to a device whose
label differs from the current device, selection switches to it with
exactly one more devicefallback notification; and the preference resolution
matches primarily by device identifier, disambiguating several same-label
matches by identifier, falling back to a label-only match only when no
identifier match exists. -/
theorem device_fallback_with_peer :
    (∀ (n : Nat) (env : Env) (c : ClientState) (cd : MediaDeviceInfo) (t : Track)
        (s gs : MStream) (nt : Track) (rest : List Track),
      c.peer = true → c.currentAudioInputDevice = some cd →
      c.currentAudioOutputDevice = none →
      (∀ d ∈ env.enumeratedInputs, d.deviceId ≠ cd.deviceId) →
      env.enumeratedInputs ≠ [] →
      c.audioTrack = some t → c.stream = some s →
      env.gum = some gs → getAudioTracks gs = nt :: rest →
      (updateDevices (n+3) env c).1.currentAudioInputDevice
          = some env.enumeratedInputs.headI
      ∧ fallbackCount (updateDevices (n+3) env c).2 = 1)
    ∧ (∀ (n : Nat) (env : Env) (c : ClientState) (cd sd : MediaDeviceInfo) (t : Track)
        (s gs : MStream) (nt : Track) (rest : List Track),
      c.peer = true → c.currentAudioInputDevice = some cd →
      c.currentAudioOutputDevice = none →
      (∃ d ∈ env.enumeratedInputs, d.deviceId = cd.deviceId) →
      getSelectedAudioDevice c.storageInput env.enumeratedInputs = some sd →
      sd.label ≠ cd.label →
      c.audioTrack = some t → c.stream = some s →
      env.gum = some gs → getAudioTracks gs = nt :: rest →
      (updateDevices (n+3) env c).1.currentAudioInputDevice = some sd
      ∧ fallbackCount (updateDevices (n+3) env c).2 = 1)
    ∧ (∀ (n : Nat) (env : Env) (c : ClientState) (cd : MediaDeviceInfo),
      c.peer = true → c.currentAudioInputDevice = none →
      c.currentAudioOutputDevice = some cd →
      (∀ d ∈ env.enumeratedOutputs, d.deviceId ≠ cd.deviceId) →
      env.enumeratedOutputs ≠ [] →
      (updateDevices (n+3) env c).1.currentAudioOutputDevice
          = some env.enumeratedOutputs.headI
      ∧ fallbackCount (updateDevices (n+3) env c).2 = 1)
    ∧ (∀ (n : Nat) (env : Env) (c : ClientState) (cd sd : MediaDeviceInfo),
      c.peer = true → c.currentAudioInputDevice = none →
      c.currentAudioOutputDevice = some cd →
      (∃ d ∈ env.enumeratedOutputs, d.deviceId = cd.deviceId) →
      getSelectedAudioDevice c.storageOutput env.enumeratedOutputs = some sd →
      sd.label ≠ cd.label →
      (updateDevices (n+3) env c).1.currentAudioOutputDevice = some sd
      ∧ fallbackCount (updateDevices (n+3) env c).2 = 1)
    ∧ (∀ (sel : StoredDevice) (devices : List MediaDeviceInfo) (d : MediaDeviceInfo),
      sel.deviceId ≠ "" → d ∈ devices → d.deviceId = sel.deviceId →
      ∃ r, getSelectedAudioDevice (some sel) devices = some r
        ∧ r.deviceId = sel.deviceId)
    ∧ (∀ (sel : StoredDevice) (devices : List MediaDeviceInfo) (d : MediaDeviceInfo),
      sel.deviceId ≠ "" → (∀ x ∈ devices, x.deviceId ≠ sel.deviceId) →
      devices.filter (fun dev => some dev.label == sel.label) = [d] →
      getSelectedAudioDevice (some sel) devices = some d) := by
  refine ⟨?_, ?_, ?_, ?_, ?_, ?_⟩
  · intro n env c cd t s gs nt rest hp hcd hout hmiss hne ht hs hg hgt
    exact updateDevices_input_fallback n env c cd t s gs nt rest hp hcd hout hmiss
      hne ht hs hg hgt
  · intro n env c cd sd t s gs nt rest hp hcd hout hpres hsel hlbl ht hs hg hgt
    exact updateDevices_input_switchback n env c cd sd t s gs nt rest hp hcd hout
      hpres hsel hlbl ht hs hg hgt
  · intro n env c cd hp hin hcd hmiss hne
    exact updateDevices_output_fallback n env c cd hp hin hcd hmiss hne
  · intro n env c cd sd hp hin hcd hpres hsel hlbl
    exact updateDevices_output_switchback n env c cd sd hp hin hcd hpres hsel hlbl
  · intro sel devices d hne hd hid
    exact getSelected_id_primary sel devices d hne hd hid
  · intro sel devices d hne hnoid hlab
    exact getSelected_label_fallback sel devices d hne hnoid hlab

theorem device_fallback_with_peer_witness :
    ((updateDevices (0+3) exampleEnv exampleClientConnected).1.currentAudioInputDevice
        = some exampleEnv.enumeratedInputs.headI
      ∧ fallbackCount (updateDevices (0+3) exampleEnv exampleClientConnected).2 = 1)
    ∧ ((updateDevices (0+3) exampleEnv2 exampleClientSwb).1.currentAudioInputDevice
        = some exampleDevTwo
      ∧ fallbackCount (updateDevices (0+3) exampleEnv2 exampleClientSwb).2 = 1)
    ∧ ((updateDevices (0+3) exampleEnvOut exampleClientOut).1.currentAudioOutputDevice
        = some exampleEnvOut.enumeratedOutputs.headI
      ∧ fallbackCount (updateDevices (0+3) exampleEnvOut exampleClientOut).2 = 1)
    ∧ ((updateDevices (0+3) exampleEnvOut2 exampleClientOutSwb).1.currentAudioOutputDevice
        = some exampleDevTwo
      ∧ fallbackCount (updateDevices (0+3) exampleEnvOut2 exampleClientOutSwb).2 = 1)
    ∧ (∃ r, getSelectedAudioDevice
          (some { deviceId := "one", label := some "X" })
          [exampleDevOne, { deviceId := "z", label := "X" }] = some r
        ∧ r.deviceId = "one")
    ∧ getSelectedAudioDevice (some { deviceId := "nope", label := some "One" })
        [exampleDevOne] = some exampleDevOne :=
  ⟨device_fallback_with_peer.1 0 exampleEnv exampleClientConnected exampleDevGone
      exampleTrack exampleStream exampleNewStream exampleNewTrack []
      (by decide) (by decide) (by decide) (by decide) (by decide) (by decide)
      (by decide) (by decide) (by decide),
   device_fallback_with_peer.2.1 0 exampleEnv2 exampleClientSwb exampleDevOne
      exampleDevTwo exampleTrack exampleStream exampleNewStream exampleNewTrack []
      (by decide) (by decide) (by decide) (by decide) (by decide) (by decide)
      (by decide) (by decide) (by decide) (by decide),
   device_fallback_with_peer.2.2.1 0 exampleEnvOut exampleClientOut exampleDevGone
      (by decide) (by decide) (by decide) (by decide) (by decide),
   device_fallback_with_peer.2.2.2.1 0 exampleEnvOut2 exampleClientOutSwb
      exampleDevOne exampleDevTwo
      (by decide) (by decide) (by decide) (by decide) (by decide) (by decide),
   device_fallback_with_peer.2.2.2.2.1 { deviceId := "one", label := some "X" }
      [exampleDevOne, { deviceId := "z", label := "X" }] exampleDevOne
      (by decide) (by decide) (by decide),
   device_fallback_with_peer.2.2.2.2.2 { deviceId := "nope", label := some "One" }
      [exampleDevOne] exampleDevOne (by decide) (by decide) (by decide)⟩
